import Mathlib

/-!
Verification of the `term_cursor` terminal-cursor library.

The public API (`src/src/lib.rs`) is embedded as Lean functions that are
generic over a `Platform` record standing for the `platform` module: the
free functions delegate to it, and the `Display` value types (`Goto`,
`Relative`, `Left`, `Right`, `Up`, `Down`, `Clear`) are embedded as `fmt`
functions threading the terminal state and the formatter buffer
explicitly, returning `Except Unit` for Rust's `std::fmt::Result` (the
error payload `fmt::Error` is a unit-like struct).

The platform backend itself is not part of the sources; the ANSI/POSIX
variant is modelled from the spec at the byte level (escape sequences as
lists of bytes, the cursor-position-report reply parsed byte by byte).

Machine integers: Rust `i32` values are embedded as `Int`, with `wrap32`
applied wherever the source performs `i32` arithmetic (release-mode
two's-complement wrapping semantics).
-/

namespace TermCursor

/-- Two's-complement wrapping of an integer into the `i32` range
`[-2^31, 2^31)`; models Rust release-mode `i32` addition/negation. -/
def wrap32 (n : Int) : Int := (n + 2 ^ 31) % 2 ^ 32 - 2 ^ 31

/-- A windows specific error (`pub enum WinApiError` in `lib.rs`).
Indicates which `WinAPI` call failed. -/
inductive WinApiError : Type where
  | GetStdHandleError
  | GetConsoleScreenBufferInfoError
  | FillConsoleOutputCharacterError
  | FillConsoleOutputAttributeError
  | SetConsoleCursorPositionError
deriving DecidableEq, Repr

/-- The central error type (`pub enum Error` in `lib.rs`).
`std::io::Error` is abstracted as an opaque OS error code. -/
inductive Error : Type where
  | IoError (code : Nat)
  | GetCursorPosParseError
  | WinApiError (e : WinApiError)
deriving DecidableEq, Repr

/-- The interface of the `platform` module that `lib.rs` compiles
against: three operations over a terminal state `σ`, each fallible with
`Error`. -/
structure Platform (σ : Type) : Type where
  set_cursor_pos : Int → Int → σ → Except Error σ
  get_cursor_pos : σ → Except Error ((Int × Int) × σ)
  clear : σ → Except Error σ

/-- Rust `pub fn set_cursor_pos(x: i32, y: i32) -> Result<(), Error>`:
delegates to `platform::set_cursor_pos(x, y)`. -/
def set_cursor_pos (P : Platform σ) (x y : Int) (s : σ) : Except Error σ :=
  P.set_cursor_pos x y s

/-- Rust `pub fn get_cursor_pos() -> Result<(i32, i32), Error>`:
delegates to `platform::get_cursor_pos()`. -/
def get_cursor_pos (P : Platform σ) (s : σ) : Except Error ((Int × Int) × σ) :=
  P.get_cursor_pos s

/-- Rust `pub fn clear() -> Result<(), Error>`: delegates to
`platform::clear()`. -/
def clear (P : Platform σ) (s : σ) : Except Error σ :=
  P.clear s

/-- Rust `pub struct Goto(pub i32, pub i32)`. -/
structure Goto : Type where
  x : Int
  y : Int
deriving DecidableEq, Repr

/-- Rust `impl Display for Goto`: calls `platform::set_cursor_pos(x, y)`,
mapping any error to the opaque `fmt::Error`; writes nothing to the
formatter buffer `buf`. -/
def Goto.fmt (P : Platform σ) (g : Goto) (s : σ) (buf : String) :
    Except Unit (σ × String) :=
  match P.set_cursor_pos g.x g.y s with
  | Except.ok s1 => Except.ok (s1, buf)
  | Except.error _ => Except.error ()

/-- Rust `pub struct Relative(pub i32, pub i32)`. -/
structure Relative : Type where
  x : Int
  y : Int
deriving DecidableEq, Repr

/-- Rust `impl Display for Relative`: reads the current position, adds the
delta with `i32` addition, then moves absolutely; any backend error
becomes the opaque `fmt::Error`; writes nothing to the formatter. -/
def Relative.fmt (P : Platform σ) (r : Relative) (s : σ) (buf : String) :
    Except Unit (σ × String) :=
  match P.get_cursor_pos s with
  | Except.error _ => Except.error ()
  | Except.ok ((cur_x, cur_y), s1) =>
    match P.set_cursor_pos (wrap32 (r.x + cur_x)) (wrap32 (r.y + cur_y)) s1 with
    | Except.ok s2 => Except.ok (s2, buf)
    | Except.error _ => Except.error ()

/-- Rust `pub struct Left(pub i32)`. -/
structure Left : Type where
  n : Int
deriving DecidableEq, Repr

/-- Rust `impl Display for Left`: `Relative(-self.0, 0).fmt(fmt)` (the `i32`
negation wraps at `i32::MIN`). -/
def Left.fmt (P : Platform σ) (l : Left) (s : σ) (buf : String) :
    Except Unit (σ × String) :=
  Relative.fmt P ⟨wrap32 (-l.n), 0⟩ s buf

/-- Rust `pub struct Right(pub i32)`. -/
structure Right : Type where
  n : Int
deriving DecidableEq, Repr

/-- Rust `impl Display for Right`: `Relative(self.0, 0).fmt(fmt)`. -/
def Right.fmt (P : Platform σ) (r : Right) (s : σ) (buf : String) :
    Except Unit (σ × String) :=
  Relative.fmt P ⟨r.n, 0⟩ s buf

/-- Rust `pub struct Up(pub i32)`. -/
structure Up : Type where
  n : Int
deriving DecidableEq, Repr

/-- Rust `impl Display for Up`: `Relative(0, -self.0).fmt(fmt)`. -/
def Up.fmt (P : Platform σ) (u : Up) (s : σ) (buf : String) :
    Except Unit (σ × String) :=
  Relative.fmt P ⟨0, wrap32 (-u.n)⟩ s buf

/-- Rust `pub struct Down(pub i32)`. -/
structure Down : Type where
  n : Int
deriving DecidableEq, Repr

/-- Rust `impl Display for Down`: `Relative(0, self.0).fmt(fmt)`. -/
def Down.fmt (P : Platform σ) (d : Down) (s : σ) (buf : String) :
    Except Unit (σ × String) :=
  Relative.fmt P ⟨0, d.n⟩ s buf

/-- Rust `pub struct Clear`. -/
structure Clear : Type where
deriving DecidableEq, Repr

/-- Rust `impl Display for Clear`: calls `platform::clear()`, mapping any
error to the opaque `fmt::Error`; writes nothing to the formatter. -/
def Clear.fmt (P : Platform σ) (s : σ) (buf : String) :
    Except Unit (σ × String) :=
  match P.clear s with
  | Except.ok s1 => Except.ok (s1, buf)
  | Except.error _ => Except.error ()

/-! ## ANSI backend, modelled from the spec

The `platform` module sources are not in the repository snapshot; only
the spec (section 4.3) describes the ANSI/POSIX variant. The following
definitions model it at the byte level. -/

/-- Modelled from the spec: byte test for an ASCII decimal digit
(`'0'` = 48 … `'9'` = 57), as used when scanning the position-report
reply. -/
def isDigitByte (b : Nat) : Bool := 48 ≤ b && b ≤ 57

/-- Modelled from the spec: numeric value of a list of ASCII digit
bytes (most significant first), as produced by parsing a decimal field
of the reply. -/
def digitsVal (ds : List Nat) : Nat :=
  ds.foldl (fun a b => 10 * a + (b - 48)) 0

/-- Modelled from the spec: fuel-indexed decimal rendering of a natural
number into ASCII digit bytes, most significant first. -/
def natDigitsAux : Nat → Nat → List Nat
  | 0, _ => []
  | f + 1, n =>
    if n < 10 then [48 + n]
    else natDigitsAux f (n / 10) ++ [48 + n % 10]

/-- Modelled from the spec: the decimal ASCII representation of a
natural number, as the terminal writes the `{row}` / `{col}` fields of
its position report (`n` itself is always enough fuel). -/
def natDigits (n : Nat) : List Nat := natDigitsAux (n + 1) n

/-- Modelled from the spec: split off the longest prefix of digit bytes
from a byte list (the field scan of the reply parser). -/
def takeDigits : List Nat → List Nat × List Nat
  | [] => ([], [])
  | b :: bs =>
    if isDigitByte b then
      let (ds, rest) := takeDigits bs
      (b :: ds, rest)
    else ([], b :: bs)

/-- Modelled from the spec: the byte sequence of a terminal
cursor-position report `ESC [ {row} ; {col} R` (ESC = 27, `[` = 91,
`;` = 59, `R` = 82), with 1-based `row` and `col`. -/
def cprRender (row col : Nat) : List Nat :=
  27 :: 91 :: (natDigits row ++ 59 :: (natDigits col ++ [82]))

/-- Modelled from the spec: parse the bytes read from the terminal (up
to and including the terminating `R`) against the exact grammar
`ESC [ {row} ; {col} R`; `none` when the reply does not match. -/
def parse_cpr (reply : List Nat) : Option (Nat × Nat) :=
  match reply with
  | 27 :: 91 :: rest =>
    match takeDigits rest with
    | (d1 :: ds1, 59 :: rest2) =>
      match takeDigits rest2 with
      | (d2 :: ds2, [82]) => some (digitsVal (d1 :: ds1), digitsVal (d2 :: ds2))
      | _ => none
    | _ => none
  | _ => none

/-- The position-report grammar of the spec: `ESC [ {row} ; {col} R`
with nonempty decimal digit fields. -/
def isCprReply (reply : List Nat) : Prop :=
  ∃ ds1 ds2 : List Nat,
    ds1 ≠ [] ∧ ds2 ≠ [] ∧
    (∀ b ∈ ds1, isDigitByte b = true) ∧
    (∀ b ∈ ds2, isDigitByte b = true) ∧
    reply = 27 :: 91 :: (ds1 ++ 59 :: (ds2 ++ [82]))

/-- Modelled from the spec: the observable terminal state — the cursor
cell (column `x`, row `y`), 0-based; a real terminal's cursor never
goes above the screen origin, so the coordinates are naturals. -/
structure Term : Type where
  x : Nat
  y : Nat
deriving DecidableEq, Repr

/-- Modelled from the spec: ANSI `set_cursor_pos` writes
`ESC[{y+1};{x+1}H` and flushes; the terminal clamps each 1-based
parameter below at 1, so the cursor lands at `(max 0 x, max 0 y)`
(which is `Int.toNat`). The model terminal is unbounded above and its
stream writes do not fail. -/
def ansi_set_cursor_pos (x y : Int) (t : Term) : Except Error Term :=
  let _ := t
  Except.ok { x := x.toNat, y := y.toNat }

/-- Modelled from the spec: interpret the reply bytes — parse against
the `ESC[{row};{col}R` grammar, convert 1-based row/column to 0-based,
fail with `Error.GetCursorPosParseError` when the reply does not
match. -/
def ansi_parse_reply (reply : List Nat) : Except Error (Int × Int) :=
  match parse_cpr reply with
  | some (row, col) => Except.ok ((col : Int) - 1, (row : Int) - 1)
  | none => Except.error Error.GetCursorPosParseError

/-- Modelled from the spec: ANSI `get_cursor_pos` writes `ESC[6n`, reads
the terminal's reply byte-by-byte until the terminating `R`, and parses
it; the model terminal replies with its actual (1-based) cursor
position. -/
def ansi_get_cursor_pos (t : Term) : Except Error ((Int × Int) × Term) :=
  match ansi_parse_reply (cprRender (t.y + 1) (t.x + 1)) with
  | Except.ok p => Except.ok (p, t)
  | Except.error e => Except.error e

/-- Modelled from the spec: ANSI `clear` writes the full-screen-clear
sequence `ESC[2J` and repositions the cursor to the origin. -/
def ansi_clear (t : Term) : Except Error Term :=
  let _ := t
  Except.ok { x := 0, y := 0 }

/-- The ANSI platform backend assembled as a `Platform` over the model
terminal state. -/
def ansiPlatform : Platform Term where
  set_cursor_pos := ansi_set_cursor_pos
  get_cursor_pos := ansi_get_cursor_pos
  clear := ansi_clear

/-! ## Instrumented platforms for call-count and failure claims -/

/-- A backend call, for counting OS interactions per render. -/
inductive Call : Type where
  | get
  | set (x y : Int)
  | clr
deriving DecidableEq, Repr

/-- A platform over a cursor plus a log of backend calls; every
operation succeeds and appends exactly one entry to the log. -/
def tracePlatform : Platform ((Int × Int) × List Call) where
  set_cursor_pos := fun x y s => Except.ok ((x, y), s.2 ++ [Call.set x y])
  get_cursor_pos := fun s => Except.ok (s.1, (s.1, s.2 ++ [Call.get]))
  clear := fun s => Except.ok ((0, 0), s.2 ++ [Call.clr])

/-- A platform on which every operation fails with an I/O error. -/
def failPlatform : Platform Unit where
  set_cursor_pos := fun _ _ _ => Except.error (Error.IoError 0)
  get_cursor_pos := fun _ => Except.error (Error.IoError 0)
  clear := fun _ => Except.error (Error.IoError 0)

/-! ## Lemmas about `i32` wrapping -/

theorem wrap32_eq_self {n : Int} (h1 : -2 ^ 31 ≤ n) (h2 : n < 2 ^ 31) :
    wrap32 n = n := by
  unfold wrap32
  omega

theorem wrap32_wrap_add (a b : Int) : wrap32 (wrap32 a + b) = wrap32 (a + b) := by
  unfold wrap32
  omega

/-! ## Lemmas about decimal digit rendering and parsing -/

theorem digitsVal_append_digit (ds : List Nat) (b : Nat) :
    digitsVal (ds ++ [b]) = 10 * digitsVal ds + (b - 48) := by
  unfold digitsVal
  rw [List.foldl_append]
  rfl

theorem natDigitsAux_spec :
    ∀ f n, n < f →
      natDigitsAux f n ≠ [] ∧
      (∀ b ∈ natDigitsAux f n, isDigitByte b = true) ∧
      digitsVal (natDigitsAux f n) = n := by
  intro f
  induction f with
  | zero => intro n hn; omega
  | succ f ih =>
    intro n hn
    by_cases h10 : n < 10
    · refine ⟨by simp [natDigitsAux, h10], ?_, ?_⟩
      · intro b hb
        simp [natDigitsAux, h10] at hb
        subst hb
        simp [isDigitByte]
        omega
      · simp [natDigitsAux, h10, digitsVal]
    · have hdiv : n / 10 < f := by
        have h1 : n / 10 < n := Nat.div_lt_self (by omega) (by omega)
        omega
      obtain ⟨hne, hdig, hval⟩ := ih (n / 10) hdiv
      refine ⟨by simp [natDigitsAux, h10], ?_, ?_⟩
      · intro b hb
        simp only [natDigitsAux, if_neg h10, List.mem_append, List.mem_singleton] at hb
        rcases hb with hb | hb
        · exact hdig b hb
        · subst hb
          have : n % 10 < 10 := Nat.mod_lt _ (by omega)
          simp [isDigitByte]
          omega
      · simp only [natDigitsAux, if_neg h10]
        rw [digitsVal_append_digit, hval]
        have := Nat.div_add_mod n 10
        omega

theorem natDigits_spec (n : Nat) :
    natDigits n ≠ [] ∧
    (∀ b ∈ natDigits n, isDigitByte b = true) ∧
    digitsVal (natDigits n) = n :=
  natDigitsAux_spec (n + 1) n (Nat.lt_succ_self n)

theorem takeDigits_append (ds : List Nat) (c : Nat) (rest : List Nat)
    (hds : ∀ b ∈ ds, isDigitByte b = true) (hc : isDigitByte c = false) :
    takeDigits (ds ++ c :: rest) = (ds, c :: rest) := by
  induction ds with
  | nil => simp [takeDigits, hc]
  | cons d ds ih =>
    have hd : isDigitByte d = true := hds d (List.mem_cons_self d ds)
    have hds2 : ∀ b ∈ ds, isDigitByte b = true := fun b hb =>
      hds b (List.mem_cons_of_mem d hb)
    simp [takeDigits, hd, ih hds2]

theorem takeDigits_sound :
    ∀ l ds rest, takeDigits l = (ds, rest) →
      l = ds ++ rest ∧ ∀ b ∈ ds, isDigitByte b = true := by
  intro l
  induction l with
  | nil =>
    intro ds rest h
    simp [takeDigits] at h
    simp [h.1, h.2]
  | cons b bs ih =>
    intro ds rest h
    by_cases hb : isDigitByte b
    · simp only [takeDigits, if_pos hb] at h
      obtain ⟨ds1, rest1, heq⟩ : ∃ ds1 rest1, takeDigits bs = (ds1, rest1) :=
        ⟨_, _, rfl⟩
      rw [heq] at h
      obtain ⟨hl, hd⟩ := ih ds1 rest1 heq
      cases h
      constructor
      · simp [hl]
      · intro x hx
        rcases List.mem_cons.mp hx with hx | hx
        · exact hx ▸ hb
        · exact hd x hx
    · simp only [takeDigits, if_neg hb] at h
      cases h
      simp

theorem parse_cpr_render (row col : Nat) :
    parse_cpr (cprRender row col) = some (row, col) := by
  obtain ⟨hne1, hdig1, hval1⟩ := natDigits_spec row
  obtain ⟨hne2, hdig2, hval2⟩ := natDigits_spec col
  obtain ⟨d1, t1, h1⟩ : ∃ d t, natDigits row = d :: t :=
    List.exists_cons_of_ne_nil hne1
  obtain ⟨d2, t2, h2⟩ : ∃ d t, natDigits col = d :: t :=
    List.exists_cons_of_ne_nil hne2
  have htake1 : takeDigits (natDigits row ++ 59 :: (natDigits col ++ [82])) =
      (natDigits row, 59 :: (natDigits col ++ [82])) :=
    takeDigits_append _ _ _ hdig1 (by decide)
  have htake2 : takeDigits (natDigits col ++ [82]) = (natDigits col, [82]) := by
    have := takeDigits_append (natDigits col) 82 [] hdig2 (by decide)
    simpa using this
  rw [h1] at htake1 hval1
  rw [h2] at htake1 htake2 hval2
  unfold cprRender
  rw [h1, h2]
  simp only [parse_cpr, htake1, htake2, hval1, hval2]

theorem parse_cpr_sound (reply : List Nat) (p : Nat × Nat)
    (h : parse_cpr reply = some p) : isCprReply reply := by
  unfold parse_cpr at h
  split at h
  · rename_i rest
    split at h
    · rename_i d1 ds1 rest2 htake1
      split at h
      · rename_i d2 ds2 htake2
        obtain ⟨hl1, hd1⟩ := takeDigits_sound rest _ _ htake1
        obtain ⟨hl2, hd2⟩ := takeDigits_sound rest2 _ _ htake2
        exact ⟨d1 :: ds1, d2 :: ds2, by simp, by simp, hd1, hd2, by
          rw [hl1, hl2]⟩
      · exact absurd h (by simp)
    · exact absurd h (by simp)
  · exact absurd h (by simp)

theorem parse_cpr_complete (reply : List Nat) (h : isCprReply reply) :
    ∃ p, parse_cpr reply = some p := by
  obtain ⟨ds1, ds2, hne1, hne2, hd1, hd2, hrep⟩ := h
  obtain ⟨d1, t1, h1⟩ : ∃ d t, ds1 = d :: t := List.exists_cons_of_ne_nil hne1
  obtain ⟨d2, t2, h2⟩ : ∃ d t, ds2 = d :: t := List.exists_cons_of_ne_nil hne2
  have htake1 : takeDigits (ds1 ++ 59 :: (ds2 ++ [82])) =
      (ds1, 59 :: (ds2 ++ [82])) :=
    takeDigits_append _ _ _ hd1 (by decide)
  have htake2 : takeDigits (ds2 ++ [82]) = (ds2, [82]) := by
    have := takeDigits_append ds2 82 [] hd2 (by decide)
    simpa using this
  rw [h1] at htake1
  rw [h2] at htake1 htake2
  refine ⟨(digitsVal (d1 :: t1), digitsVal (d2 :: t2)), ?_⟩
  rw [hrep, h1, h2]
  simp only [parse_cpr, htake1, htake2]

/-- On the model terminal the position query always succeeds and
reports the actual cursor. -/
theorem ansi_get_eq (t : Term) :
    ansi_get_cursor_pos t = Except.ok (((t.x : Int), (t.y : Int)), t) := by
  unfold ansi_get_cursor_pos ansi_parse_reply
  rw [parse_cpr_render]
  simp

/-- Rewrapping an already-wrapped x-delta does not change what
`Relative.fmt` does: `i32` addition is congruent modulo `2^32`. -/
theorem Relative.fmt_wrap_x (P : Platform σ) (a b : Int) (s : σ) (buf : String) :
    Relative.fmt P ⟨wrap32 a, b⟩ s buf = Relative.fmt P ⟨a, b⟩ s buf := by
  unfold Relative.fmt
  cases hget : P.get_cursor_pos s with
  | error e => rfl
  | ok p =>
    obtain ⟨⟨cx, cy⟩, s1⟩ := p
    simp only [wrap32_wrap_add]

/-- Rewrapping an already-wrapped y-delta does not change what
`Relative.fmt` does. -/
theorem Relative.fmt_wrap_y (P : Platform σ) (a b : Int) (s : σ) (buf : String) :
    Relative.fmt P ⟨a, wrap32 b⟩ s buf = Relative.fmt P ⟨a, b⟩ s buf := by
  unfold Relative.fmt
  cases hget : P.get_cursor_pos s with
  | error e => rfl
  | ok p =>
    obtain ⟨⟨cx, cy⟩, s1⟩ := p
    simp only [wrap32_wrap_add]

/-- C1: for every n, rendering `Left(n)` produces the same terminal
end-state as rendering `Relative(-n, 0)`; `Right(n)` the same as
`Relative(n, 0)`; `Up(n)` the same as `Relative(0, -n)`; `Down(n)` the
same as `Relative(0, n)` — over any platform backend and any starting
state. -/
theorem left_right_up_down_equiv_relative {σ : Type} (P : Platform σ)
    (s : σ) (buf : String) (n : Int) :
    Left.fmt P ⟨n⟩ s buf = Relative.fmt P ⟨-n, 0⟩ s buf ∧
    Right.fmt P ⟨n⟩ s buf = Relative.fmt P ⟨n, 0⟩ s buf ∧
    Up.fmt P ⟨n⟩ s buf = Relative.fmt P ⟨0, -n⟩ s buf ∧
    Down.fmt P ⟨n⟩ s buf = Relative.fmt P ⟨0, n⟩ s buf :=
  ⟨Relative.fmt_wrap_x P (-n) 0 s buf, rfl,
   Relative.fmt_wrap_y P 0 (-n) s buf, rfl⟩

/-- C4: the free functions `set_cursor_pos`, `get_cursor_pos` and
`clear` return exactly the result of the corresponding platform backend
operation — in particular any error variant reaches the caller
untouched, with no retry, recovery, or transformation. -/
theorem free_functions_delegate_untouched {σ : Type} (P : Platform σ)
    (x y : Int) (s : σ) :
    set_cursor_pos P x y s = P.set_cursor_pos x y s ∧
    get_cursor_pos P s = P.get_cursor_pos s ∧
    clear P s = P.clear s :=
  ⟨rfl, rfl, rfl⟩

/-- C5: for every pair `(x, y)` with `x ≥ 0` and `y ≥ 0`, a successful
`set_cursor_pos(x, y)` followed by `get_cursor_pos()` returns `(x, y)`
on the (querying-capable) model terminal. -/
theorem set_get_roundtrip (x y : Int) (t : Term) (hx : 0 ≤ x) (hy : 0 ≤ y) :
    ∃ t1, set_cursor_pos ansiPlatform x y t = Except.ok t1 ∧
      get_cursor_pos ansiPlatform t1 = Except.ok ((x, y), t1) := by
  refine ⟨⟨x.toNat, y.toNat⟩, rfl, ?_⟩
  show ansi_get_cursor_pos _ = _
  rw [ansi_get_eq]
  simp [Int.toNat_of_nonneg hx, Int.toNat_of_nonneg hy]

/-- Witness for C5 at `(x, y) = (3, 5)` from a terminal at `(0, 0)`. -/
theorem set_get_roundtrip_witness :
    0 ≤ (3 : Int) ∧ 0 ≤ (5 : Int) ∧
    ∃ t1, set_cursor_pos ansiPlatform 3 5 ⟨0, 0⟩ = Except.ok t1 ∧
      get_cursor_pos ansiPlatform t1 = Except.ok ((3, 5), t1) :=
  ⟨by decide, by decide, set_get_roundtrip 3 5 ⟨0, 0⟩ (by decide) (by decide)⟩

/-- C6: a successful `clear()` resets the cursor to the origin:
`clear()` followed by `get_cursor_pos()` returns `(0, 0)`. -/
theorem clear_resets_origin (t t1 : Term)
    (h : clear ansiPlatform t = Except.ok t1) :
    t1 = ⟨0, 0⟩ ∧
    get_cursor_pos ansiPlatform t1 = Except.ok (((0 : Int), (0 : Int)), t1) := by
  have ht1 : t1 = ⟨0, 0⟩ := by
    have h2 : Except.ok (ε := Error) ({ x := 0, y := 0 } : Term) = Except.ok t1 := h
    cases h2
    rfl
  subst ht1
  refine ⟨rfl, ?_⟩
  simpa using ansi_get_eq ⟨0, 0⟩

/-- Witness for C6: clearing from a terminal at `(5, 10)`. -/
theorem clear_resets_origin_witness :
    clear ansiPlatform ⟨5, 10⟩ = Except.ok ({ x := 0, y := 0 } : Term) ∧
    (({ x := 0, y := 0 } : Term) = ⟨0, 0⟩ ∧
      get_cursor_pos ansiPlatform ⟨0, 0⟩ =
        Except.ok (((0 : Int), (0 : Int)), (⟨0, 0⟩ : Term))) :=
  ⟨rfl, clear_resets_origin ⟨5, 10⟩ ⟨0, 0⟩ rfl⟩

/-- C2 counterexample: rendering `Relative(-1, 0)` with the cursor at
`(0, 0)` leaves the cursor at `(0, 0)`, not at `(x + dx, y + dy) =
(-1, 0)` — the terminal clamps at the origin, so the claim does not
hold for every delta. -/
theorem relative_claim_counterexample :
    Relative.fmt ansiPlatform ⟨-1, 0⟩ ⟨0, 0⟩ "" =
      Except.ok (({ x := 0, y := 0 } : Term), "") ∧
    (((0 : Nat) : Int), ((0 : Nat) : Int)) ≠ ((0 : Int) + (-1), (0 : Int) + 0) :=
  ⟨rfl, by decide⟩

/-- C2 amended: rendering `Relative(dx, dy)` with the cursor at
`(x, y)` reads the current position, adds the delta and moves
absolutely, leaving the cursor at `(x + dx, y + dy)` — provided both
target coordinates are nonnegative and within the `i32` range. -/
theorem relative_moves_by_delta_in_range (dx dy : Int) (t : Term)
    (buf : String)
    (hx0 : 0 ≤ (t.x : Int) + dx) (hx1 : (t.x : Int) + dx < 2 ^ 31)
    (hy0 : 0 ≤ (t.y : Int) + dy) (hy1 : (t.y : Int) + dy < 2 ^ 31) :
    ∃ t1 : Term,
      Relative.fmt ansiPlatform ⟨dx, dy⟩ t buf = Except.ok (t1, buf) ∧
      (t1.x : Int) = (t.x : Int) + dx ∧ (t1.y : Int) = (t.y : Int) + dy := by
  have hwx : wrap32 (dx + (t.x : Int)) = dx + (t.x : Int) :=
    wrap32_eq_self (by omega) (by omega)
  have hwy : wrap32 (dy + (t.y : Int)) = dy + (t.y : Int) :=
    wrap32_eq_self (by omega) (by omega)
  refine ⟨⟨(dx + (t.x : Int)).toNat, (dy + (t.y : Int)).toNat⟩, ?_, ?_, ?_⟩
  · unfold Relative.fmt
    rw [show ansiPlatform.get_cursor_pos t =
      Except.ok (((t.x : Int), (t.y : Int)), t) from ansi_get_eq t]
    simp only [hwx, hwy]
    rfl
  · rw [Int.toNat_of_nonneg (by omega : (0 : Int) ≤ dx + (t.x : Int))]
    omega
  · rw [Int.toNat_of_nonneg (by omega : (0 : Int) ≤ dy + (t.y : Int))]
    omega

/-- Witness for the amended C2: cursor at `(2, 7)`, delta `(-2, 3)`,
ending at `(0, 10)`. -/
theorem relative_moves_by_delta_in_range_witness :
    0 ≤ ((2 : Nat) : Int) + (-2) ∧ ((2 : Nat) : Int) + (-2) < 2 ^ 31 ∧
    0 ≤ ((7 : Nat) : Int) + 3 ∧ ((7 : Nat) : Int) + 3 < 2 ^ 31 ∧
    ∃ t1 : Term,
      Relative.fmt ansiPlatform ⟨-2, 3⟩ ⟨2, 7⟩ "" = Except.ok (t1, "") ∧
      (t1.x : Int) = ((2 : Nat) : Int) + (-2) ∧
      (t1.y : Int) = ((7 : Nat) : Int) + 3 :=
  ⟨by norm_num, by norm_num, by norm_num, by norm_num,
   relative_moves_by_delta_in_range (-2) 3 ⟨2, 7⟩ ""
     (by norm_num) (by norm_num) (by norm_num) (by norm_num)⟩

/-- C3: for every renderable value type and every underlying backend
error, rendering converts the failure into the single opaque
formatting-failure signal (`Except.error ()`, the unit-like
`fmt::Error`), discarding which `Error` variant occurred. -/
theorem display_collapses_errors {σ : Type} (P : Platform σ) (s : σ)
    (buf : String) :
    (∀ (g : Goto) (e : Error), P.set_cursor_pos g.x g.y s = Except.error e →
      Goto.fmt P g s buf = Except.error ()) ∧
    (∀ (r : Relative) (e : Error), P.get_cursor_pos s = Except.error e →
      Relative.fmt P r s buf = Except.error ()) ∧
    (∀ (r : Relative) (cx cy : Int) (s1 : σ) (e : Error),
      P.get_cursor_pos s = Except.ok ((cx, cy), s1) →
      P.set_cursor_pos (wrap32 (r.x + cx)) (wrap32 (r.y + cy)) s1 =
        Except.error e →
      Relative.fmt P r s buf = Except.error ()) ∧
    (∀ (l : Left) (e : Error), P.get_cursor_pos s = Except.error e →
      Left.fmt P l s buf = Except.error ()) ∧
    (∀ (r : Right) (e : Error), P.get_cursor_pos s = Except.error e →
      Right.fmt P r s buf = Except.error ()) ∧
    (∀ (u : Up) (e : Error), P.get_cursor_pos s = Except.error e →
      Up.fmt P u s buf = Except.error ()) ∧
    (∀ (d : Down) (e : Error), P.get_cursor_pos s = Except.error e →
      Down.fmt P d s buf = Except.error ()) ∧
    (∀ e : Error, P.clear s = Except.error e →
      Clear.fmt P s buf = Except.error ()) := by
  refine ⟨?_, ?_, ?_, ?_, ?_, ?_, ?_, ?_⟩
  · intro g e h
    unfold Goto.fmt
    rw [h]
  · intro r e h
    unfold Relative.fmt
    rw [h]
  · intro r cx cy s1 e hget hset
    unfold Relative.fmt
    rw [hget]
    simp only [hset]
  · intro l e h
    unfold Left.fmt Relative.fmt
    rw [h]
  · intro r e h
    unfold Right.fmt Relative.fmt
    rw [h]
  · intro u e h
    unfold Up.fmt Relative.fmt
    rw [h]
  · intro d e h
    unfold Down.fmt Relative.fmt
    rw [h]
  · intro e h
    unfold Clear.fmt
    rw [h]

/-- Witness for C3 on a platform whose every operation fails with an
I/O error. -/
theorem display_collapses_errors_witness :
    Goto.fmt failPlatform ⟨1, 2⟩ () "" = Except.error () ∧
    Relative.fmt failPlatform ⟨3, 4⟩ () "" = Except.error () ∧
    Left.fmt failPlatform ⟨1⟩ () "" = Except.error () ∧
    Right.fmt failPlatform ⟨1⟩ () "" = Except.error () ∧
    Up.fmt failPlatform ⟨1⟩ () "" = Except.error () ∧
    Down.fmt failPlatform ⟨1⟩ () "" = Except.error () ∧
    Clear.fmt failPlatform () "" = Except.error () := by
  obtain ⟨h1, h2, _, h4, h5, h6, h7, h8⟩ :=
    display_collapses_errors failPlatform () ""
  exact ⟨h1 ⟨1, 2⟩ (Error.IoError 0) rfl, h2 ⟨3, 4⟩ (Error.IoError 0) rfl,
    h4 ⟨1⟩ (Error.IoError 0) rfl, h5 ⟨1⟩ (Error.IoError 0) rfl,
    h6 ⟨1⟩ (Error.IoError 0) rfl, h7 ⟨1⟩ (Error.IoError 0) rfl,
    h8 (Error.IoError 0) rfl⟩

/-- C7: every reply to the cursor-position query that does not match
the grammar `ESC[{row};{col}R` makes the (total, hence panic-free)
reply interpretation return `Error.GetCursorPosParseError`, never a
silently wrong position. -/
theorem malformed_reply_parse_error (reply : List Nat)
    (h : ¬ isCprReply reply) :
    ansi_parse_reply reply = Except.error Error.GetCursorPosParseError := by
  cases ho : parse_cpr reply with
  | none =>
    unfold ansi_parse_reply
    rw [ho]
  | some p => exact absurd (parse_cpr_sound reply p ho) h

/-- Witness for C7: the truncated reply `ESC [ 1 ; 2` (missing the
trailing `R`) is rejected with the parse error. -/
theorem malformed_reply_parse_error_witness :
    ¬ isCprReply [27, 91, 49, 59, 50] ∧
    ansi_parse_reply [27, 91, 49, 59, 50] =
      Except.error Error.GetCursorPosParseError := by
  have hn : ¬ isCprReply [27, 91, 49, 59, 50] := by
    intro hg
    obtain ⟨p, hp⟩ := parse_cpr_complete _ hg
    rw [show parse_cpr [27, 91, 49, 59, 50] = none from rfl] at hp
    simp at hp
  exact ⟨hn, malformed_reply_parse_error _ hn⟩

/-- C8: on the call-logging platform, each render appends exactly its
own backend calls to an arbitrary prior log `L` (so nothing is
retained between renders): `Goto` performs one `set`, `Clear` one
`clear`, and `Relative` and the four single-axis types exactly one
`get` followed by one `set`. -/
theorem render_call_trace (a b dx dy n x y : Int) (L : List Call)
    (buf : String) :
    Goto.fmt tracePlatform ⟨a, b⟩ ((x, y), L) buf =
      Except.ok (((a, b), L ++ [Call.set a b]), buf) ∧
    (∃ p q, Relative.fmt tracePlatform ⟨dx, dy⟩ ((x, y), L) buf =
      Except.ok (((p, q), L ++ [Call.get, Call.set p q]), buf)) ∧
    (∃ p q, Left.fmt tracePlatform ⟨n⟩ ((x, y), L) buf =
      Except.ok (((p, q), L ++ [Call.get, Call.set p q]), buf)) ∧
    (∃ p q, Right.fmt tracePlatform ⟨n⟩ ((x, y), L) buf =
      Except.ok (((p, q), L ++ [Call.get, Call.set p q]), buf)) ∧
    (∃ p q, Up.fmt tracePlatform ⟨n⟩ ((x, y), L) buf =
      Except.ok (((p, q), L ++ [Call.get, Call.set p q]), buf)) ∧
    (∃ p q, Down.fmt tracePlatform ⟨n⟩ ((x, y), L) buf =
      Except.ok (((p, q), L ++ [Call.get, Call.set p q]), buf)) ∧
    Clear.fmt tracePlatform ((x, y), L) buf =
      Except.ok (((0, 0), L ++ [Call.clr]), buf) := by
  have hrel : ∀ ddx ddy : Int,
      Relative.fmt tracePlatform ⟨ddx, ddy⟩ ((x, y), L) buf =
        Except.ok (((wrap32 (ddx + x), wrap32 (ddy + y)),
          L ++ [Call.get, Call.set (wrap32 (ddx + x)) (wrap32 (ddy + y))]),
          buf) := by
    intro ddx ddy
    unfold Relative.fmt tracePlatform
    simp
  refine ⟨rfl,
    ⟨_, _, hrel dx dy⟩,
    ⟨_, _, hrel (wrap32 (-n)) 0⟩,
    ⟨_, _, hrel n 0⟩,
    ⟨_, _, hrel 0 (wrap32 (-n))⟩,
    ⟨_, _, hrel 0 n⟩,
    rfl⟩

/-- C9: `Relative` computes its target with wrapping `i32` addition:
with the cursor at `(2147483647, 0)` (`i32::MAX`), rendering
`Relative(1, 0)` ends with the cursor at `(0, 0)` — the wrapped sum
`-2^31` clamped by the terminal — not at the mathematical sum
`2147483648`. -/
theorem relative_wraps_i32 :
    Relative.fmt ansiPlatform ⟨1, 0⟩ ⟨2147483647, 0⟩ "" =
      Except.ok (({ x := 0, y := 0 } : Term), "") ∧
    wrap32 (1 + 2147483647) = -2 ^ 31 ∧
    ((0 : Nat) : Int) ≠ (2147483647 : Int) + 1 :=
  ⟨rfl, by unfold wrap32; decide, by decide⟩

/-- C10: the `Display` implementations of all seven value types write
nothing to the formatter: whenever rendering succeeds, the formatter
buffer is returned unchanged (so formatting into an empty buffer
yields the empty string; only the terminal side effect happens). -/
theorem display_writes_nothing {σ : Type} (P : Platform σ) (s : σ)
    (buf : String) :
    (∀ (g : Goto) r, Goto.fmt P g s buf = Except.ok r → r.2 = buf) ∧
    (∀ (v : Relative) r, Relative.fmt P v s buf = Except.ok r → r.2 = buf) ∧
    (∀ (v : Left) r, Left.fmt P v s buf = Except.ok r → r.2 = buf) ∧
    (∀ (v : Right) r, Right.fmt P v s buf = Except.ok r → r.2 = buf) ∧
    (∀ (v : Up) r, Up.fmt P v s buf = Except.ok r → r.2 = buf) ∧
    (∀ (v : Down) r, Down.fmt P v s buf = Except.ok r → r.2 = buf) ∧
    (∀ r, Clear.fmt P s buf = Except.ok r → r.2 = buf) := by
  have hrel : ∀ (v : Relative) r,
      Relative.fmt P v s buf = Except.ok r → r.2 = buf := by
    intro v r h
    unfold Relative.fmt at h
    split at h
    · cases h
    · split at h
      · cases h
        rfl
      · cases h
  refine ⟨?_, hrel, ?_, ?_, ?_, ?_, ?_⟩
  · intro g r h
    unfold Goto.fmt at h
    split at h
    · cases h
      rfl
    · cases h
  · intro v r h
    exact hrel _ r h
  · intro v r h
    exact hrel _ r h
  · intro v r h
    exact hrel _ r h
  · intro v r h
    exact hrel _ r h
  · intro r h
    unfold Clear.fmt at h
    split at h
    · cases h
      rfl
    · cases h

/-- Witness for C10: a successful `Goto(1, 2)` render on the logging
platform leaves the (empty) formatter buffer unchanged. -/
theorem display_writes_nothing_witness :
    Goto.fmt tracePlatform ⟨1, 2⟩ ((0, 0), []) "" =
      Except.ok ((((1 : Int), (2 : Int)), [Call.set 1 2]), "") ∧
    (((((1 : Int), (2 : Int)), [Call.set 1 2]), "")).2 = "" :=
  ⟨rfl, (display_writes_nothing tracePlatform ((0, 0), []) "").1
    ⟨1, 2⟩ (((1, 2), [Call.set 1 2]), "") rfl⟩

end TermCursor
